import Mathlib

/-!
Verification development for the Agentic-AI-assessment repository.

The repository is a React/TypeScript frontend (`frontend/src/App.tsx`,
`frontend/src/services/api.ts`, `frontend/src/types.ts`) talking to a
Flask "Reasoning Aggregation Engine" backend over `POST /v1/completions`.

This file shallowly embeds:
  * the response/request record types of `frontend/src/types.ts`;
  * the frontend form-state logic of `App.tsx` (`handleInputChange`,
    `handleSubmit`) and the API client of `services/api.ts`
    (`submitCompletion`, `submitCompletionWithPDF`);
  * the Reasoning Aggregation Engine itself.  The backend Python sources
    (`models.py`, `self_consistency.py`, `cot_engine.py`, `app.py`) are not
    part of the available sources, so the engine is modelled from the
    specification (validation bounds, chain-of-thought driving, sample
    fan-out, consistency voting with the two-stage tie-break, reflection,
    usage accounting, and result composition); each such definition is
    marked `Modelled from the spec:` in its doc comment.

JavaScript numbers that may be NaN are embedded as `Option ℚ` (`none` =
NaN); money and confidence arithmetic is embedded over `ℚ`.
-/

/- ----------------------------------------------------------------- -/
/- Record types, from `frontend/src/types.ts`.                        -/
/- ----------------------------------------------------------------- -/

/-- One chain-of-thought step, from `ChainOfThoughtStep` in `types.ts`. -/
structure ChainOfThoughtStep where
  step_number : ℕ
  reasoning : String
deriving Repr, DecidableEq

/-- One self-consistency sample, from `SelfConsistencySample` in `types.ts`. -/
structure SelfConsistencySample where
  sample_number : ℕ
  reasoning_path : List ChainOfThoughtStep
  final_answer : String
  llm_confidence : ℚ
deriving Repr, DecidableEq

/-- Token accounting totals, from `TokenUsage` in `types.ts`. -/
structure TokenUsage where
  prompt_tokens : ℕ
  completion_tokens : ℕ
  total_tokens : ℕ
deriving Repr, DecidableEq

/-- Cost breakdown, from `CostAnalysis` in `types.ts`. -/
structure CostAnalysis where
  input_cost : ℚ
  output_cost : ℚ
  total_cost : ℚ
  currency : String
  pricing_model : String
  input_price_per_1m : ℚ
  output_price_per_1m : ℚ
deriving Repr, DecidableEq

/-- Timing breakdown, from `Timing` in `types.ts` (optional fields are
`Option`). -/
structure Timing where
  total_time : ℚ
  samples_time : Option ℚ
  reflection_time : Option ℚ
deriving Repr, DecidableEq

/-- PDF extraction metadata, from `PDFInfo` in `types.ts`. -/
structure PDFInfo where
  num_pages : ℕ
  error : Option String
deriving Repr, DecidableEq

/-- The full engine response record, from `AgenticResponse` in `types.ts`;
`pdf_info` is the lone optional field. -/
structure AgenticResponse where
  prompt : String
  model_used : String
  chain_of_thought : List ChainOfThoughtStep
  self_consistency_samples : List SelfConsistencySample
  preliminary_answer : String
  final_answer : String
  confidence_score : ℚ
  llm_confidence : ℚ
  agreement_confidence : ℚ
  reflection_reasoning : String
  reflection_confidence : ℚ
  reasoning_summary : String
  token_usage : TokenUsage
  cost_analysis : CostAnalysis
  timing : Timing
  pdf_info : Option PDFInfo
deriving Repr, DecidableEq

/- ----------------------------------------------------------------- -/
/- Frontend form state and input handling, from `App.tsx`.            -/
/- ----------------------------------------------------------------- -/

/-- A JavaScript number that may be NaN (`none`). -/
def JNum : Type := Option ℚ
deriving DecidableEq

/-- Shorthand for a non-NaN JavaScript number. -/
def JNum.num (q : ℚ) : JNum := some q

/-- The JavaScript NaN value. -/
def JNum.nan : JNum := none

/-- The frontend form state, from the `AgenticRequest` interface in
`types.ts` as held in `formData` in `App.tsx`: the numeric parameters are
JavaScript numbers (so possibly NaN after parsing), the rest strings. -/
structure AgenticRequest where
  prompt : String
  system_prompt : String
  num_self_consistency : JNum
  num_cot : JNum
  model : String
  temperature : JNum
deriving DecidableEq

/-- Initial `formData` value in `App.tsx`. -/
def initialFormData : AgenticRequest :=
  { prompt := "If a train travels 60 kilometers in 1 hour, how far will it travel in 2.5 hours?"
  , system_prompt := ""
  , num_self_consistency := JNum.num 3
  , num_cot := JNum.num 2
  , model := "fast"
  , temperature := JNum.num (7/10) }

/-- Numeric value of the leading decimal-digit run of `cs`, or `none`
when `cs` does not start with a digit. -/
def leadingDigitsVal (cs : List Char) : Option ℕ :=
  let ds := cs.takeWhile Char.isDigit
  if ds.isEmpty then none
  else some (ds.foldl (fun a c => 10 * a + (c.toNat - 48)) 0)

/-- JavaScript `parseInt(value)` on a decimal string: skip leading
whitespace, take an optional sign and the leading run of digits; NaN when
no digits are found (in particular on the empty string). -/
def jsParseInt (s : String) : JNum :=
  match s.toList.dropWhile Char.isWhitespace with
  | '-' :: rest => (leadingDigitsVal rest).map (fun n => (-(n : ℚ) : ℚ))
  | '+' :: rest => (leadingDigitsVal rest).map (fun n => ((n : ℚ) : ℚ))
  | cs => (leadingDigitsVal cs).map (fun n => ((n : ℚ) : ℚ))

/-- Value of a digit run read as the fractional part of a decimal. -/
def fracDigitsVal (ds : List Char) : ℚ :=
  (ds.foldr (fun c a => ((c.toNat - 48 : ℕ) + a) / 10) 0 : ℚ)

/-- JavaScript `parseFloat(value)` on a decimal literal: skip leading
whitespace, optional sign, integer digits, optional `'.'` and fraction
digits; NaN when there is no digit at all (in particular on the empty
string). -/
def jsParseFloat (s : String) : JNum :=
  let core : List Char → JNum := fun cs =>
    let intDs := cs.takeWhile Char.isDigit
    let rest := cs.dropWhile Char.isDigit
    let fracDs : List Char :=
      match rest with
      | '.' :: t => t.takeWhile Char.isDigit
      | _ => []
    if intDs.isEmpty ∧ fracDs.isEmpty then JNum.nan
    else JNum.num ((intDs.foldl (fun a c => 10 * a + (c.toNat - 48)) 0 : ℕ) + fracDigitsVal fracDs)
  match s.toList.dropWhile Char.isWhitespace with
  | '-' :: rest => (core rest).map (fun q => -q)
  | '+' :: rest => core rest
  | cs => core cs

/-- `handleInputChange` from `App.tsx`: the change event's `name` selects
the field; `num_self_consistency` and `num_cot` store `parseInt(value)`,
`temperature` stores `parseFloat(value)`, and every other field stores the
raw string. -/
def handleInputChange (f : AgenticRequest) (name value : String) : AgenticRequest :=
  if name = "num_self_consistency" then { f with num_self_consistency := jsParseInt value }
  else if name = "num_cot" then { f with num_cot := jsParseInt value }
  else if name = "temperature" then { f with temperature := jsParseFloat value }
  else if name = "prompt" then { f with prompt := value }
  else if name = "system_prompt" then { f with system_prompt := value }
  else if name = "model" then { f with model := value }
  else f

/- ----------------------------------------------------------------- -/
/- API client, from `frontend/src/services/api.ts`.                   -/
/- ----------------------------------------------------------------- -/

/-- A value appended to a multipart form: a text field or the PDF file. -/
inductive FormValue where
  | str : String → FormValue
  | file : String → FormValue
deriving DecidableEq

/-- The body of a `POST /v1/completions` request: JSON (the request object
itself) or multipart form data. -/
inductive PostBody where
  | json : AgenticRequest → PostBody
  | multipart : List (String × FormValue) → PostBody
deriving DecidableEq

/-- JavaScript `Number.prototype.toString` as used on the numeric request
fields (`.toString()` in `submitCompletionWithPDF`); NaN prints "NaN". -/
def JNum.render : JNum → String
  | none => "NaN"
  | some q => toString q

/-- `submitCompletion` from `api.ts`: posts the request object unchanged
as the JSON body. -/
def submitCompletion (request : AgenticRequest) : PostBody :=
  PostBody.json request

/-- `submitCompletionWithPDF` from `api.ts`: builds a `FormData` with
`pdf_file` and `prompt`, appends `system_prompt` only when it is truthy
(non-empty), then the numeric parameters converted with `.toString()`,
the model and the temperature. -/
def submitCompletionWithPDF (request : AgenticRequest) (pdfFile : String) : PostBody :=
  PostBody.multipart
    ([("pdf_file", FormValue.file pdfFile), ("prompt", FormValue.str request.prompt)]
      ++ (if request.system_prompt ≠ "" then [("system_prompt", FormValue.str request.system_prompt)] else [])
      ++ [("num_self_consistency", FormValue.str request.num_self_consistency.render),
          ("num_cot", FormValue.str request.num_cot.render),
          ("model", FormValue.str request.model),
          ("temperature", FormValue.str request.temperature.render)])

/- ----------------------------------------------------------------- -/
/- Submission state machine, from `handleSubmit` in `App.tsx`.        -/
/- ----------------------------------------------------------------- -/

/-- The three React state cells of `App.tsx` that `handleSubmit` touches. -/
structure AppState where
  loading : Bool
  response : Option AgenticResponse
  error : Option String
deriving DecidableEq

/-- How one submission settles: the awaited API call either returns a
response or throws, where a thrown error carries the optional
`err.response?.data?.message` and the optional `err.message`. -/
inductive SubmitOutcome where
  | success : AgenticResponse → SubmitOutcome
  | failure : Option String → Option String → SubmitOutcome

/-- JavaScript truthiness of an optional string (absent and `""` are
falsy). -/
def jsTruthyStr : Option String → Bool
  | none => false
  | some s => s ≠ ""

/-- The error text chosen by the catch branch of `handleSubmit`:
`err.response?.data?.message || err.message || 'An error occurred'`. -/
def submitErrorText (respMsg errMsg : Option String) : String :=
  if jsTruthyStr respMsg then respMsg.getD ""
  else if jsTruthyStr errMsg then errMsg.getD ""
  else "An error occurred"

/-- The state right after `handleSubmit` begins: `setLoading(true)`,
`setError(null)`, `setResponse(null)`. -/
def handleSubmitStart (_s : AppState) : AppState :=
  { loading := true, response := none, error := none }

/-- The state after the submission settles: the try branch stores the
response, the catch branch stores the chosen error text, and the finally
branch clears `loading` in both cases. -/
def handleSubmitSettle (s : AppState) (o : SubmitOutcome) : AppState :=
  match o with
  | SubmitOutcome.success r => { s with loading := false, response := some r }
  | SubmitOutcome.failure respMsg errMsg =>
      { s with loading := false, error := some (submitErrorText respMsg errMsg) }

/-- One whole run of `handleSubmit`: clear both result cells and set
`loading`, then settle. -/
def handleSubmit (s : AppState) (o : SubmitOutcome) : AppState :=
  handleSubmitSettle (handleSubmitStart s) o

/-- The `min`/`max` attributes of the `num_self_consistency` number input
in the `App.tsx` form. -/
def numSelfConsistencyInputMin : ℕ := 1

/-- The `max` attribute of the `num_self_consistency` number input. -/
def numSelfConsistencyInputMax : ℕ := 10

/-- The `min` attribute of the `num_cot` number input in the form. -/
def numCotInputMin : ℕ := 1

/-- The `max` attribute of the `num_cot` number input in the form. -/
def numCotInputMax : ℕ := 5

/- ----------------------------------------------------------------- -/
/- The Reasoning Aggregation Engine.  The backend Python sources are  -/
/- not among the available source files, so the engine is modelled    -/
/- from the specification.                                            -/
/- ----------------------------------------------------------------- -/

/-- Model tier selector (`fast`/`slow`), from the `model` field of
`AgenticRequest` in `types.ts`. -/
inductive ModelTier where
  | fast
  | slow
deriving DecidableEq, Repr

/-- Modelled from the spec: the output of the external Document
Extractor, already attached to the request by the transport layer
(`extractText(fileBytes) → {text, pageCount}` or an extraction warning). -/
structure PDFDocument where
  text : String
  num_pages : ℕ
  extraction_error : Option String
deriving DecidableEq

/-- Modelled from the spec: `PromptRequest` — prompt text, optional system
instruction, optional attached document, sample count K, step count N,
model tier, sampling temperature. -/
structure PromptRequest where
  prompt : String
  system_prompt : String
  document : Option PDFDocument
  num_self_consistency : ℤ
  num_cot : ℤ
  model : ModelTier
  temperature : ℚ
deriving DecidableEq

/-- Which request parameter a validation error is about. -/
inductive ValidationField where
  | promptField
  | numSelfConsistencyField
  | numCotField
  | temperatureField
deriving DecidableEq, Repr

/-- Modelled from the spec: `ValidationError` — surfaced immediately to
the caller with the offending field. -/
structure ValidationError where
  offendingField : ValidationField
  message : String
deriving DecidableEq

/-- Modelled from the spec: `ProviderError{cause}` raised by the model
provider client on transport/auth/quota failure. -/
structure ProviderError where
  cause : String
deriving DecidableEq

/-- Modelled from the spec: the fatal error kinds `runAggregation` can
surface to its caller. -/
inductive EngineError where
  | validation : ValidationError → EngineError
  | aggregation : String → EngineError
deriving DecidableEq

/-- Modelled from the spec: one parsed Step Generator result — a reasoning
step, the final-answer extraction and self-reported confidence carried by
the final step, and the call's token usage. -/
structure StepOutput where
  reasoning : String
  final_answer : String
  confidence : ℚ
  prompt_tokens : ℕ
  completion_tokens : ℕ
deriving DecidableEq

/-- Modelled from the spec: the Reflection Stage result — refined final
answer, reflection reasoning, reflection confidence, token usage. -/
structure ReflectOutput where
  answer : String
  reasoning : String
  confidence : ℚ
  prompt_tokens : ℕ
  completion_tokens : ℕ
deriving DecidableEq

/-- Modelled from the spec: a deterministic model backend as injected
into the engine for testing — the settled outcome of each Step Generator
invocation (per sample index and step index), the settled outcome of the
Reflection Stage call, and stub wall-clock durations for the two phases. -/
structure Backend where
  step : ℕ → ℕ → Except ProviderError StepOutput
  reflect : Except ProviderError ReflectOutput
  samples_seconds : ℚ
  reflection_seconds : ℚ

/-- Modelled from the spec: request validation at the engine boundary —
prompt required non-empty, K ∈ [1,15], N ∈ [1,10], temperature ∈
[0.0,2.0]; the first violated rule is reported with its offending
field. -/
def validate (req : PromptRequest) : Option ValidationError :=
  if req.prompt = "" then
    some { offendingField := ValidationField.promptField
         , message := "prompt must be non-empty" }
  else if ¬ (1 ≤ req.num_self_consistency ∧ req.num_self_consistency ≤ 15) then
    some { offendingField := ValidationField.numSelfConsistencyField
         , message := "num_self_consistency must be between 1 and 15" }
  else if ¬ (1 ≤ req.num_cot ∧ req.num_cot ≤ 10) then
    some { offendingField := ValidationField.numCotField
         , message := "num_cot must be between 1 and 10" }
  else if ¬ (0 ≤ req.temperature ∧ req.temperature ≤ 2) then
    some { offendingField := ValidationField.temperatureField
         , message := "temperature must be between 0.0 and 2.0" }
  else
    none

/-- The declared engine bounds on K, N and temperature, as one
predicate. -/
def boundsOK (req : PromptRequest) : Prop :=
  (1 ≤ req.num_self_consistency ∧ req.num_self_consistency ≤ 15)
  ∧ (1 ≤ req.num_cot ∧ req.num_cot ≤ 10)
  ∧ (0 ≤ req.temperature ∧ req.temperature ≤ 2)

instance (req : PromptRequest) : Decidable (boundsOK req) := by
  unfold boundsOK; infer_instance

/-- Modelled from the spec: the result of one Chain-of-Thought Driver
run — the steps completed so far, the final answer and self-reported
confidence extracted from the final step, whether the path succeeded, and
its model-call and token accounting. -/
structure PathRun where
  steps : List ChainOfThoughtStep
  final_answer : String
  confidence : ℚ
  ok : Bool
  calls : ℕ
  prompt_tokens : ℕ
  completion_tokens : ℕ
deriving DecidableEq

/-- Modelled from the spec: the Chain-of-Thought Driver loop — starting at
step index `i` with `n` steps still to produce, sequentially invoke the
Step Generator; a `ProviderError` fails the whole path with the steps
completed so far, and the final step supplies the final answer and the
self-reported confidence. -/
def runStepsFrom (b : Backend) (k : ℕ) : ℕ → ℕ → PathRun
  | _, 0 =>
      { steps := [], final_answer := "", confidence := 0, ok := true
      , calls := 0, prompt_tokens := 0, completion_tokens := 0 }
  | i, n + 1 =>
      match b.step k i with
      | Except.error _ =>
          { steps := [], final_answer := "", confidence := 0, ok := false
          , calls := 1, prompt_tokens := 0, completion_tokens := 0 }
      | Except.ok out =>
          let rest := runStepsFrom b k (i + 1) n
          { steps := { step_number := i, reasoning := out.reasoning } :: rest.steps
          , final_answer := if n = 0 then out.final_answer else rest.final_answer
          , confidence := if n = 0 then out.confidence else rest.confidence
          , ok := rest.ok
          , calls := rest.calls + 1
          , prompt_tokens := out.prompt_tokens + rest.prompt_tokens
          , completion_tokens := out.completion_tokens + rest.completion_tokens }

/-- Modelled from the spec: one Chain-of-Thought Driver run of `n` steps
for sample `k` (step indices start at 1). -/
def runPath (b : Backend) (n : ℕ) (k : ℕ) : PathRun :=
  runStepsFrom b k 1 n

/-- The `SelfConsistencySample` record a completed path reports. -/
def pathSample (k : ℕ) (p : PathRun) : SelfConsistencySample :=
  { sample_number := k
  , reasoning_path := p.steps
  , final_answer := p.final_answer
  , llm_confidence := p.confidence }

/-- Modelled from the spec: Sample Fan-Out — K independent
Chain-of-Thought Driver runs, sample indices 1..K. -/
def fanOutRuns (b : Backend) (K n : ℕ) : List (ℕ × PathRun) :=
  (List.range K).map (fun k => (k + 1, runPath b n (k + 1)))

/-- The successful subset of the fan-out, as samples (per-sample failures
are isolated and dropped here). -/
def successfulSamples (b : Backend) (K n : ℕ) : List SelfConsistencySample :=
  (fanOutRuns b K n).filterMap
    (fun kp => if kp.2.ok then some (pathSample kp.1 kp.2) else none)

/-- Model calls issued by the whole fan-out (failed paths included). -/
def fanOutCalls (b : Backend) (K n : ℕ) : ℕ :=
  ((fanOutRuns b K n).map (fun kp => kp.2.calls)).sum

/-- Prompt tokens accumulated over every fan-out model call. -/
def fanOutPromptTokens (b : Backend) (K n : ℕ) : ℕ :=
  ((fanOutRuns b K n).map (fun kp => kp.2.prompt_tokens)).sum

/-- Completion tokens accumulated over every fan-out model call. -/
def fanOutCompletionTokens (b : Backend) (K n : ℕ) : ℕ :=
  ((fanOutRuns b K n).map (fun kp => kp.2.completion_tokens)).sum

/-- Modelled from the spec: answer normalization for the Consistency
Voter — case/whitespace/punctuation-insensitive comparison (lower-case,
keep only alphanumeric characters). -/
def normalizeAnswer (s : String) : String :=
  String.mk ((s.toList.map Char.toLower).filter Char.isAlphanum)

/-- The equivalence key of a sample's final answer. -/
def answerKey (s : SelfConsistencySample) : String :=
  normalizeAnswer s.final_answer

/-- Modelled from the spec: `ConsistencyGroup` — the samples whose final
answers were judged equivalent, under their shared normalized key. -/
structure ConsistencyGroup where
  key : String
  members : List SelfConsistencySample
deriving DecidableEq

/-- Group size. -/
def ConsistencyGroup.size (g : ConsistencyGroup) : ℕ :=
  g.members.length

/-- Mean self-reported confidence of a group's members. -/
def ConsistencyGroup.meanConfidence (g : ConsistencyGroup) : ℚ :=
  ((g.members.map SelfConsistencySample.llm_confidence).sum) / (g.members.length : ℚ)

/-- Lowest sample index occurring in the group (earliest-submitted). -/
def ConsistencyGroup.minIndex (g : ConsistencyGroup) : ℕ :=
  match g.members.map SelfConsistencySample.sample_number with
  | [] => 0
  | x :: xs => xs.foldl min x

/-- Representative answer string of a group: its first member's final
answer. -/
def ConsistencyGroup.representative (g : ConsistencyGroup) : String :=
  ((g.members.head?).map SelfConsistencySample.final_answer).getD ""

/-- Modelled from the spec: partition the successful samples into
consistency groups by normalized answer key (keys in order of first
appearance). -/
def answerGroups (samples : List SelfConsistencySample) : List ConsistencyGroup :=
  ((samples.map answerKey).dedup).map
    (fun k => { key := k, members := samples.filter (fun s => answerKey s = k) })

/-- Modelled from the spec: the voter's preference — strictly larger
group first, then strictly higher mean self-reported confidence, then
strictly lower minimum sample index. -/
def betterThan (g1 g2 : ConsistencyGroup) : Prop :=
  g2.size < g1.size
  ∨ (g1.size = g2.size
      ∧ (g2.meanConfidence < g1.meanConfidence
          ∨ (g1.meanConfidence = g2.meanConfidence ∧ g1.minIndex < g2.minIndex)))

instance (g1 g2 : ConsistencyGroup) : Decidable (betterThan g1 g2) :=
  inferInstanceAs (Decidable
    (g2.size < g1.size
      ∨ (g1.size = g2.size
          ∧ (g2.meanConfidence < g1.meanConfidence
              ∨ (g1.meanConfidence = g2.meanConfidence ∧ g1.minIndex < g2.minIndex)))))

/-- Modelled from the spec: the Consistency Voter's winner — the group
preferred by `betterThan` over every other group, found by a left fold
over the groups. -/
def voteWinner (samples : List SelfConsistencySample) : ConsistencyGroup :=
  match answerGroups samples with
  | [] => { key := "", members := [] }
  | g :: gs => gs.foldl (fun best cand => if betterThan cand best then cand else best) g

/-- Modelled from the spec: agreement confidence = winning-group size ÷
number of successful samples. -/
def agreementConfidence (samples : List SelfConsistencySample) : ℚ :=
  ((voteWinner samples).size : ℚ) / (samples.length : ℚ)

/-- Modelled from the spec: the Result Composer's fixed configurable
blending weights. -/
structure ConfidenceWeights where
  agreement : ℚ
  self_reported : ℚ
  reflection : ℚ
deriving DecidableEq

/-- The default blending weights 0.4 / 0.3 / 0.3. -/
def defaultWeights : ConfidenceWeights :=
  { agreement := 2/5, self_reported := 3/10, reflection := 3/10 }

/-- Modelled from the spec: the blended confidence score — a weighted sum
of agreement confidence, mean self-reported confidence of the winning
group, and reflection confidence; when reflection was skipped its term is
dropped and its weight redistributed proportionally over the remaining
two. -/
def blendedConfidence (w : ConfidenceWeights) (agree mean : ℚ) (refl : Option ℚ) : ℚ :=
  match refl with
  | some r => w.agreement * agree + w.self_reported * mean + w.reflection * r
  | none => (w.agreement * agree + w.self_reported * mean) / (w.agreement + w.self_reported)

/-- Modelled from the spec: one row of the externally configured price
table — input/output price per million tokens and currency. -/
structure PriceTier where
  input_price_per_1m : ℚ
  output_price_per_1m : ℚ
  currency : String
  pricing_model : String
deriving DecidableEq

/-- Modelled from the spec: the Usage Accountant's cost computation —
token counts times the tier's per-token price (the configured price is
per million tokens), total = input + output. -/
def computeCost (p : PriceTier) (promptTokens completionTokens : ℕ) : CostAnalysis :=
  { input_cost := (promptTokens : ℚ) * (p.input_price_per_1m / 1000000)
  , output_cost := (completionTokens : ℚ) * (p.output_price_per_1m / 1000000)
  , total_cost := (promptTokens : ℚ) * (p.input_price_per_1m / 1000000)
      + (completionTokens : ℚ) * (p.output_price_per_1m / 1000000)
  , currency := p.currency
  , pricing_model := p.pricing_model
  , input_price_per_1m := p.input_price_per_1m
  , output_price_per_1m := p.output_price_per_1m }

/-- Concrete model name reported for each tier (`FAST_MODEL`/`SLOW_MODEL`
defaults from the README configuration). -/
def modelUsedName : ModelTier → String
  | ModelTier.fast => "gpt-4o-mini"
  | ModelTier.slow => "gpt-4o"

/-- Modelled from the spec: the Result Composer — assembles the
`AgenticResponse` from the successful samples, the voter's winner, the
optional reflection output, and the accumulated fan-out token usage. -/
def composeResponse (prices : ModelTier → PriceTier) (req : PromptRequest)
    (samples : List SelfConsistencySample) (refl : Option ReflectOutput)
    (samplePT sampleCT : ℕ) (b : Backend) : AgenticResponse :=
  let winner := voteWinner samples
  let pt := samplePT + (refl.map ReflectOutput.prompt_tokens).getD 0
  let ct := sampleCT + (refl.map ReflectOutput.completion_tokens).getD 0
  let k := samples.length
  let w := winner.size
  { prompt := req.prompt
  , model_used := modelUsedName req.model
  , chain_of_thought := ((winner.members.head?).map SelfConsistencySample.reasoning_path).getD []
  , self_consistency_samples := samples
  , preliminary_answer := winner.representative
  , final_answer := (refl.map ReflectOutput.answer).getD winner.representative
  , confidence_score := blendedConfidence defaultWeights (agreementConfidence samples)
      winner.meanConfidence (refl.map ReflectOutput.confidence)
  , llm_confidence := winner.meanConfidence
  , agreement_confidence := agreementConfidence samples
  , reflection_reasoning := (refl.map ReflectOutput.reasoning).getD ""
  , reflection_confidence := (refl.map ReflectOutput.confidence).getD 0
  , reasoning_summary := s!"Generated {k} independent reasoning paths; agreement {w}/{k}"
  , token_usage := { prompt_tokens := pt, completion_tokens := ct, total_tokens := pt + ct }
  , cost_analysis := computeCost (prices req.model) pt ct
  , timing := { total_time := b.samples_seconds + b.reflection_seconds
              , samples_time := some b.samples_seconds
              , reflection_time := some b.reflection_seconds }
  , pdf_info := req.document.map (fun d => { num_pages := d.num_pages, error := d.extraction_error }) }

/-- The outcome of one engine run: the result surfaced to the caller, and
how many model calls were issued while producing it. -/
structure RunOutcome where
  result : Except EngineError AgenticResponse
  modelCalls : ℕ

/-- Modelled from the spec: `runAggregation(PromptRequest) →
AggregateResult | EngineError` — validate (rejecting before any model
call), fan out K paths of N steps, fail with
`AggregationError("insufficient samples")` when no path succeeded (no
reflection call issued), otherwise vote, run the single Reflection Stage
call (its failure is absorbed: the stage is skipped), and compose the
response. -/
def runAggregation (prices : ModelTier → PriceTier) (b : Backend) (req : PromptRequest) : RunOutcome :=
  match validate req with
  | some e => { result := Except.error (EngineError.validation e), modelCalls := 0 }
  | none =>
      let K := req.num_self_consistency.toNat
      let N := req.num_cot.toNat
      if successfulSamples b K N = [] then
        { result := Except.error (EngineError.aggregation "insufficient samples")
        , modelCalls := fanOutCalls b K N }
      else
        match b.reflect with
        | Except.error _ =>
            { result := Except.ok (composeResponse prices req (successfulSamples b K N) none
                (fanOutPromptTokens b K N) (fanOutCompletionTokens b K N) b)
            , modelCalls := fanOutCalls b K N + 1 }
        | Except.ok r =>
            { result := Except.ok (composeResponse prices req (successfulSamples b K N) (some r)
                (fanOutPromptTokens b K N) (fanOutCompletionTokens b K N) b)
            , modelCalls := fanOutCalls b K N + 1 }

/-- Whether an engine result is a success (no fatal error surfaced). -/
def resultOK : Except EngineError AgenticResponse → Bool
  | Except.ok _ => true
  | Except.error _ => false

/- ----------------------------------------------------------------- -/
/- Concrete fixtures used by witnesses.                               -/
/- ----------------------------------------------------------------- -/

/-- A deterministic stub backend: every step call succeeds with fixed
text, reflection succeeds. -/
def stubBackend : Backend :=
  { step := fun _k i => Except.ok
      { reasoning := s!"step {i}", final_answer := "Paris", confidence := 90
      , prompt_tokens := 10, completion_tokens := 20 }
  , reflect := Except.ok
      { answer := "Paris", reasoning := "The analysis confirms the answer."
      , confidence := 95, prompt_tokens := 30, completion_tokens := 15 }
  , samples_seconds := 2
  , reflection_seconds := 1 }

/-- The stub backend with a failing Reflection Stage call. -/
def failingReflectBackend : Backend :=
  { stubBackend with reflect := Except.error { cause := "rate limit" } }

/-- A concrete price table: the README's tier prices per million tokens. -/
def defaultPriceTable : ModelTier → PriceTier
  | ModelTier.fast =>
      { input_price_per_1m := 15/100, output_price_per_1m := 60/100
      , currency := "USD", pricing_model := "gpt-4o-mini" }
  | ModelTier.slow =>
      { input_price_per_1m := 5/2, output_price_per_1m := 10
      , currency := "USD", pricing_model := "gpt-4o" }

/-- A concrete valid request. -/
def sampleRequest : PromptRequest :=
  { prompt := "What is the capital of France?"
  , system_prompt := ""
  , document := none
  , num_self_consistency := 3
  , num_cot := 2
  , model := ModelTier.fast
  , temperature := 1 }

/-- The sample request with an out-of-bounds sample count (K = 0). -/
def invalidRequest : PromptRequest :=
  { sampleRequest with num_self_consistency := 0 }

/-- The sample request with an attached document. -/
def sampleRequestWithDoc : PromptRequest :=
  { sampleRequest with document := some { text := "doc text", num_pages := 5, extraction_error := none } }

/-- The response produced by running the stub backend on the sample
request (extracted from the run outcome). -/
def sampleRunResponse : AgenticResponse :=
  ((runAggregation defaultPriceTable stubBackend sampleRequest).result.toOption).getD
    (composeResponse defaultPriceTable sampleRequest [] none 0 0 stubBackend)

/-- The response produced when the reflection call fails. -/
def sampleRunResponseNoReflect : AgenticResponse :=
  ((runAggregation defaultPriceTable failingReflectBackend sampleRequest).result.toOption).getD
    (composeResponse defaultPriceTable sampleRequest [] none 0 0 failingReflectBackend)

/-- The response produced for the request with an attached document. -/
def sampleRunResponseDoc : AgenticResponse :=
  ((runAggregation defaultPriceTable stubBackend sampleRequestWithDoc).result.toOption).getD
    (composeResponse defaultPriceTable sampleRequestWithDoc [] none 0 0 stubBackend)

/-- The entries of a multipart body (empty for a JSON body). -/
def multipartEntries : PostBody → List (String × FormValue)
  | PostBody.json _ => []
  | PostBody.multipart entries => entries

/-- Scenario A of the spec's testable properties: five samples whose final
answers are Paris, Paris, Paris, Paris, Lyon. -/
def scenarioASamples : List SelfConsistencySample :=
  [ { sample_number := 1, reasoning_path := [], final_answer := "Paris", llm_confidence := 90 }
  , { sample_number := 2, reasoning_path := [], final_answer := "Paris", llm_confidence := 85 }
  , { sample_number := 3, reasoning_path := [], final_answer := "Paris", llm_confidence := 80 }
  , { sample_number := 4, reasoning_path := [], final_answer := "Paris", llm_confidence := 75 }
  , { sample_number := 5, reasoning_path := [], final_answer := "Lyon", llm_confidence := 95 } ]

/- ----------------------------------------------------------------- -/
/- Theorems.                                                          -/
/- ----------------------------------------------------------------- -/

/-- C8: for every request submitted with a PDF, `submitCompletionWithPDF`
builds a multipart form containing `pdf_file`, `prompt`,
`num_self_consistency`, `num_cot`, `model` and `temperature` (numeric
parameters converted to strings), and includes `system_prompt` exactly
when it is non-empty; without a PDF, `submitCompletion` posts the request
object unchanged as JSON (an empty `system_prompt` string included). -/
theorem submitCompletionWithPDF_spec (request : AgenticRequest) (pdfFile : String) :
    ("pdf_file", FormValue.file pdfFile) ∈ multipartEntries (submitCompletionWithPDF request pdfFile)
    ∧ ("prompt", FormValue.str request.prompt) ∈ multipartEntries (submitCompletionWithPDF request pdfFile)
    ∧ ("num_self_consistency", FormValue.str request.num_self_consistency.render)
        ∈ multipartEntries (submitCompletionWithPDF request pdfFile)
    ∧ ("num_cot", FormValue.str request.num_cot.render)
        ∈ multipartEntries (submitCompletionWithPDF request pdfFile)
    ∧ ("model", FormValue.str request.model)
        ∈ multipartEntries (submitCompletionWithPDF request pdfFile)
    ∧ ("temperature", FormValue.str request.temperature.render)
        ∈ multipartEntries (submitCompletionWithPDF request pdfFile)
    ∧ ((("system_prompt", FormValue.str request.system_prompt)
          ∈ multipartEntries (submitCompletionWithPDF request pdfFile))
        ↔ request.system_prompt ≠ "")
    ∧ submitCompletion request = PostBody.json request := by
  by_cases h : request.system_prompt = "" <;>
    simp [submitCompletionWithPDF, multipartEntries, submitCompletion, h]

/-- C9: `handleInputChange` stores `parseInt(value)` for
`num_self_consistency` and `num_cot`, `parseFloat(value)` for
`temperature`, and the raw string for every other field; the empty string
parses to NaN, so the outgoing request can carry NaN in a numeric
parameter, and no range clamping is applied (a value above the HTML `max`
is stored unchanged). -/
theorem handleInputChange_spec (f : AgenticRequest) (v : String) :
    handleInputChange f "num_self_consistency" v = { f with num_self_consistency := jsParseInt v }
    ∧ handleInputChange f "num_cot" v = { f with num_cot := jsParseInt v }
    ∧ handleInputChange f "temperature" v = { f with temperature := jsParseFloat v }
    ∧ handleInputChange f "prompt" v = { f with prompt := v }
    ∧ handleInputChange f "system_prompt" v = { f with system_prompt := v }
    ∧ handleInputChange f "model" v = { f with model := v }
    ∧ jsParseInt "" = JNum.nan
    ∧ jsParseFloat "" = JNum.nan
    ∧ (handleInputChange f "num_self_consistency" "").num_self_consistency = JNum.nan
    ∧ submitCompletion (handleInputChange f "num_self_consistency" "")
        = PostBody.json { f with num_self_consistency := JNum.nan }
    ∧ (handleInputChange f "num_self_consistency" "99").num_self_consistency = JNum.num 99 := by
  refine ⟨rfl, rfl, rfl, rfl, rfl, rfl, rfl, rfl, rfl, rfl, ?_⟩
  show jsParseInt "99" = JNum.num 99
  decide

/-- C10: after every submission settles, `loading` is false and at most
one of `response` and `error` is non-null: each submit first clears both
and sets `loading`; success stores only the response; failure stores only
the error text, taken from the server's `message` field when truthy, else
the client error message, else a fixed fallback. -/
theorem handleSubmit_spec (s : AppState) (o : SubmitOutcome) :
    (handleSubmit s o).loading = false
    ∧ ((handleSubmit s o).response = none ∨ (handleSubmit s o).error = none)
    ∧ (handleSubmitStart s).loading = true
    ∧ (handleSubmitStart s).response = none
    ∧ (handleSubmitStart s).error = none
    ∧ (∀ r, o = SubmitOutcome.success r →
        handleSubmit s o = { loading := false, response := some r, error := none })
    ∧ (∀ respMsg errMsg, o = SubmitOutcome.failure respMsg errMsg →
        (handleSubmit s o).response = none
        ∧ (handleSubmit s o).error = some (submitErrorText respMsg errMsg)) := by
  cases o <;>
    simp [handleSubmit, handleSubmitStart, handleSubmitSettle]

/-- Witness for C10 at a concrete state and failure outcome. -/
theorem handleSubmit_spec_witness :
    (handleSubmit { loading := false, response := none, error := none }
        (SubmitOutcome.failure (some "Invalid request") none)).response = none
    ∧ (handleSubmit { loading := false, response := none, error := none }
        (SubmitOutcome.failure (some "Invalid request") none)).error
        = some (submitErrorText (some "Invalid request") none)
    ∧ submitErrorText (some "Invalid request") none = "Invalid request" :=
  ⟨((handleSubmit_spec { loading := false, response := none, error := none }
      (SubmitOutcome.failure (some "Invalid request") none)).2.2.2.2.2.2 _ _ rfl).1,
   ((handleSubmit_spec { loading := false, response := none, error := none }
      (SubmitOutcome.failure (some "Invalid request") none)).2.2.2.2.2.2 _ _ rfl).2,
   by decide⟩

/-- The voter preference is irreflexive. -/
theorem betterThan_irrefl (g : ConsistencyGroup) : ¬ betterThan g g := by
  unfold betterThan
  rintro (h | ⟨-, h | ⟨-, h⟩⟩) <;> exact lt_irrefl _ h

/-- The voter preference is asymmetric. -/
theorem betterThan_asymm {g1 g2 : ConsistencyGroup} (h : betterThan g1 g2) :
    ¬ betterThan g2 g1 := by
  unfold betterThan at h ⊢
  rcases h with h1 | ⟨e1, h1 | ⟨me1, h1⟩⟩ <;>
    rintro (h2 | ⟨e2, h2 | ⟨me2, h2⟩⟩) <;>
    first
      | omega
      | linarith

/-- Non-preference is transitive (the preference is a strict weak
order). -/
theorem notBetterThan_trans {x y z : ConsistencyGroup}
    (hxy : ¬ betterThan x y) (hyz : ¬ betterThan y z) : ¬ betterThan x z := by
  unfold betterThan at hxy hyz ⊢
  push_neg at hxy hyz
  have hsxy := hxy.1
  have hsyz := hyz.1
  rintro (h | ⟨e, h | ⟨me, h⟩⟩)
  · omega
  · have exy : x.size = y.size := by omega
    have eyz : y.size = z.size := by omega
    have h1 := (hxy.2 exy).1
    have h2 := (hyz.2 eyz).1
    linarith
  · have exy : x.size = y.size := by omega
    have eyz : y.size = z.size := by omega
    have hm1 := (hxy.2 exy).1
    have hm2 := (hyz.2 eyz).1
    have mxy : x.meanConfidence = y.meanConfidence := le_antisymm hm1 (by linarith)
    have myz : y.meanConfidence = z.meanConfidence := le_antisymm hm2 (by linarith)
    have hi1 := (hxy.2 exy).2 mxy
    have hi2 := (hyz.2 eyz).2 myz
    omega

/-- The fold the voter uses stays inside the group list. -/
theorem foldl_pick_mem (g : ConsistencyGroup) (gs : List ConsistencyGroup) :
    gs.foldl (fun best cand => if betterThan cand best then cand else best) g ∈ g :: gs := by
  induction gs generalizing g with
  | nil => simp
  | cons c cs ih =>
      simp only [List.foldl_cons]
      have h := ih (if betterThan c g then c else g)
      rcases List.mem_cons.1 h with h' | h'
      · rw [h']
        by_cases hb : betterThan c g
        · rw [if_pos hb]
          exact List.mem_cons_of_mem _ (List.mem_cons_self _ _)
        · rw [if_neg hb]
          exact List.mem_cons_self _ _
      · exact List.mem_cons_of_mem _ (List.mem_cons_of_mem _ h')

/-- No group in the list is preferred over the fold's result. -/
theorem foldl_pick_maximal (g : ConsistencyGroup) (gs : List ConsistencyGroup) :
    ∀ x ∈ g :: gs,
      ¬ betterThan x (gs.foldl (fun best cand => if betterThan cand best then cand else best) g) := by
  induction gs generalizing g with
  | nil =>
      intro x hx
      have hx' : x = g := by simpa using hx
      subst hx'
      exact betterThan_irrefl x
  | cons c cs ih =>
      intro x hx
      simp only [List.foldl_cons]
      have hgc : ¬ betterThan g (if betterThan c g then c else g) := by
        by_cases hb : betterThan c g
        · rw [if_pos hb]; exact betterThan_asymm hb
        · rw [if_neg hb]; exact betterThan_irrefl g
      have hcc : ¬ betterThan c (if betterThan c g then c else g) := by
        by_cases hb : betterThan c g
        · rw [if_pos hb]; exact betterThan_irrefl c
        · rw [if_neg hb]; exact hb
      have hptop :=
        ih (if betterThan c g then c else g) (if betterThan c g then c else g)
          (List.mem_cons_self _ _)
      rcases List.mem_cons.1 hx with rfl | hx2
      · exact notBetterThan_trans hgc hptop
      rcases List.mem_cons.1 hx2 with rfl | hx3
      · exact notBetterThan_trans hcc hptop
      · exact ih (if betterThan c g then c else g) x (List.mem_cons_of_mem _ hx3)

/-- A nonempty sample list yields a nonempty group list. -/
theorem answerGroups_ne_nil {samples : List SelfConsistencySample} (h : samples ≠ []) :
    answerGroups samples ≠ [] := by
  unfold answerGroups
  simp [List.dedup_eq_nil, h]

/-- The voter's winner is one of the groups. -/
theorem voteWinner_mem {samples : List SelfConsistencySample} (h : samples ≠ []) :
    voteWinner samples ∈ answerGroups samples := by
  unfold voteWinner
  split
  · next heq => exact absurd heq (answerGroups_ne_nil h)
  · next g gs heq => rw [heq]; exact foldl_pick_mem g gs

/-- No group is preferred over the voter's winner. -/
theorem voteWinner_maximal {samples : List SelfConsistencySample} (h : samples ≠ []) :
    ∀ g ∈ answerGroups samples, ¬ betterThan g (voteWinner samples) := by
  intro g hg
  unfold voteWinner
  split
  · next heq => exact absurd heq (answerGroups_ne_nil h)
  · next g0 gs heq => exact foldl_pick_maximal g0 gs g (heq ▸ hg)

/-- Every group is a filtered sublist of the samples, so no larger. -/
theorem mem_answerGroups_size_le {samples : List SelfConsistencySample}
    {g : ConsistencyGroup} (hg : g ∈ answerGroups samples) :
    g.size ≤ samples.length := by
  unfold answerGroups at hg
  rcases List.mem_map.1 hg with ⟨k, -, rfl⟩
  simpa [ConsistencyGroup.size] using List.length_filter_le (fun s => answerKey s = k) samples

/-- Validation passes exactly on in-bounds requests with non-empty
prompt. -/
theorem validate_eq_none_of (req : PromptRequest) (hb : boundsOK req) (hp : req.prompt ≠ "") :
    validate req = none := by
  obtain ⟨h1, h2, h3⟩ := hb
  unfold validate
  simp [hp, h1.1, h1.2, h2.1, h2.2, h3.1, h3.2]

/-- An out-of-bounds request is rejected by validation. -/
theorem validate_some_of_not_bounds (req : PromptRequest) (hb : ¬ boundsOK req) :
    ∃ e, validate req = some e := by
  unfold validate
  by_cases h1 : req.prompt = ""
  · simp [h1]
  · by_cases h2 : 1 ≤ req.num_self_consistency ∧ req.num_self_consistency ≤ 15
    · by_cases h3 : 1 ≤ req.num_cot ∧ req.num_cot ≤ 10
      · by_cases h4 : 0 ≤ req.temperature ∧ req.temperature ≤ 2
        · exact absurd ⟨h2, h3, h4⟩ hb
        · simp [h1, h2, h3, h4]
      · simp [h1, h2, h3]
    · simp [h1, h2]

/-- When the bounds hold, the only validation error validation can still
report is about the prompt. -/
theorem validate_some_field_of_bounds {req : PromptRequest} (hb : boundsOK req)
    {e : ValidationError} (h : validate req = some e) :
    e.offendingField = ValidationField.promptField := by
  obtain ⟨h1, h2, h3⟩ := hb
  unfold validate at h
  by_cases hp : req.prompt = ""
  · rw [if_pos hp] at h
    simp only [Option.some.injEq] at h
    subst h
    rfl
  · rw [if_neg hp, if_neg (not_not.2 h1), if_neg (not_not.2 h2), if_neg (not_not.2 h3)] at h
    simp at h

/-- A rejected request produces a validation error and zero model
calls. -/
theorem runAggregation_validate_some {prices : ModelTier → PriceTier} {b : Backend}
    {req : PromptRequest} {e : ValidationError} (h : validate req = some e) :
    runAggregation prices b req
      = { result := Except.error (EngineError.validation e), modelCalls := 0 } := by
  unfold runAggregation
  rw [h]

/-- Inversion of a successful engine run: validation passed, at least
one sample succeeded, and the response is the composed record for the
reflection branch taken. -/
theorem runAggregation_ok_elim {prices : ModelTier → PriceTier} {b : Backend}
    {req : PromptRequest} {resp : AgenticResponse}
    (h : (runAggregation prices b req).result = Except.ok resp) :
    validate req = none
    ∧ successfulSamples b req.num_self_consistency.toNat req.num_cot.toNat ≠ []
    ∧ ((∃ r, b.reflect = Except.ok r
          ∧ resp = composeResponse prices req
              (successfulSamples b req.num_self_consistency.toNat req.num_cot.toNat) (some r)
              (fanOutPromptTokens b req.num_self_consistency.toNat req.num_cot.toNat)
              (fanOutCompletionTokens b req.num_self_consistency.toNat req.num_cot.toNat) b)
      ∨ (∃ pe, b.reflect = Except.error pe
          ∧ resp = composeResponse prices req
              (successfulSamples b req.num_self_consistency.toNat req.num_cot.toNat) none
              (fanOutPromptTokens b req.num_self_consistency.toNat req.num_cot.toNat)
              (fanOutCompletionTokens b req.num_self_consistency.toNat req.num_cot.toNat) b)) := by
  unfold runAggregation at h
  rcases hval : validate req with _ | e
  · rw [hval] at h
    dsimp only at h
    by_cases hs : successfulSamples b req.num_self_consistency.toNat req.num_cot.toNat = []
    · rw [if_pos hs] at h
      exact absurd h (by simp)
    · rw [if_neg hs] at h
      rcases hrefl : b.reflect with pe | r
      · rw [hrefl] at h
        dsimp only at h
        refine ⟨rfl, hs, Or.inr ⟨pe, rfl, ?_⟩⟩
        exact (Except.ok.inj h).symm
      · rw [hrefl] at h
        dsimp only at h
        refine ⟨rfl, hs, Or.inl ⟨r, rfl, ?_⟩⟩
        exact (Except.ok.inj h).symm
  · rw [hval] at h
    exact absurd h (by simp)

/-- C1: runAggregation accepts exactly the requests with K ∈ [1,15],
N ∈ [1,10] and temperature ∈ [0.0,2.0]: any of these out of bounds makes
the engine return a `ValidationError` with zero model calls issued, and
validation never rejects in-bounds values of K, N or temperature (the
only remaining rejection is about the prompt; in-bounds requests with a
non-empty prompt pass validation); the frontend form instead bounds K at
10 and N at 5. -/
theorem runAggregation_validation_bounds (prices : ModelTier → PriceTier)
    (b : Backend) (req : PromptRequest) :
    (¬ boundsOK req →
      (∃ e, (runAggregation prices b req).result = Except.error (EngineError.validation e))
      ∧ (runAggregation prices b req).modelCalls = 0)
    ∧ (boundsOK req → ∀ e, validate req = some e →
        e.offendingField = ValidationField.promptField)
    ∧ (boundsOK req → req.prompt ≠ "" → validate req = none)
    ∧ numSelfConsistencyInputMax = 10 ∧ numCotInputMax = 5 := by
  refine ⟨?_, ?_, ?_, rfl, rfl⟩
  · intro hb
    obtain ⟨e, he⟩ := validate_some_of_not_bounds req hb
    rw [runAggregation_validate_some he]
    exact ⟨⟨e, rfl⟩, rfl⟩
  · intro hb e he
    exact validate_some_field_of_bounds hb he
  · intro hb hp
    exact validate_eq_none_of req hb hp

/-- Witness for C1: the concrete request with K = 0 is out of bounds and
is rejected with zero model calls. -/
theorem runAggregation_validation_bounds_witness :
    (¬ boundsOK invalidRequest)
    ∧ (∃ e, (runAggregation defaultPriceTable stubBackend invalidRequest).result
          = Except.error (EngineError.validation e))
    ∧ (runAggregation defaultPriceTable stubBackend invalidRequest).modelCalls = 0 :=
  have hb : ¬ boundsOK invalidRequest := by decide
  ⟨hb,
   ((runAggregation_validation_bounds defaultPriceTable stubBackend invalidRequest).1 hb).1,
   ((runAggregation_validation_bounds defaultPriceTable stubBackend invalidRequest).1 hb).2⟩

/-- The composed response reports PDF metadata exactly when the request
carried a document. -/
theorem composeResponse_pdf_info_isSome (prices : ModelTier → PriceTier)
    (req : PromptRequest) (samples : List SelfConsistencySample)
    (refl : Option ReflectOutput) (samplePT sampleCT : ℕ) (b : Backend) :
    (composeResponse prices req samples refl samplePT sampleCT b).pdf_info.isSome
      = req.document.isSome := by
  cases hd : req.document <;> simp [composeResponse, hd]

/-- C2: every successful `runAggregation` response carries the full
record — in particular all successful samples (each with its steps, final
answer and self-reported confidence), token totals and cost totals that
add up, and both timing components — and `pdf_info` is present exactly
when a document was supplied with the request. -/
theorem runAggregation_response_fields (prices : ModelTier → PriceTier) (b : Backend)
    (req : PromptRequest) (resp : AgenticResponse)
    (h : (runAggregation prices b req).result = Except.ok resp) :
    resp.pdf_info.isSome = req.document.isSome
    ∧ resp.self_consistency_samples
        = successfulSamples b req.num_self_consistency.toNat req.num_cot.toNat
    ∧ resp.token_usage.total_tokens
        = resp.token_usage.prompt_tokens + resp.token_usage.completion_tokens
    ∧ resp.cost_analysis.total_cost
        = resp.cost_analysis.input_cost + resp.cost_analysis.output_cost
    ∧ resp.timing.samples_time.isSome = true
    ∧ resp.timing.reflection_time.isSome = true := by
  obtain ⟨-, -, ⟨r, -, rfl⟩ | ⟨pe, -, rfl⟩⟩ := runAggregation_ok_elim h <;>
    exact ⟨composeResponse_pdf_info_isSome _ _ _ _ _ _ _, rfl, rfl, rfl, rfl, rfl⟩

/-- Witness for C2: a concrete run with an attached document has
`pdf_info` present, and the same run without a document does not. -/
theorem runAggregation_response_fields_witness :
    (runAggregation defaultPriceTable stubBackend sampleRequestWithDoc).result
        = Except.ok sampleRunResponseDoc
    ∧ sampleRunResponseDoc.pdf_info.isSome = sampleRequestWithDoc.document.isSome
    ∧ sampleRunResponseDoc.pdf_info.isSome = true :=
  have h : (runAggregation defaultPriceTable stubBackend sampleRequestWithDoc).result
      = Except.ok sampleRunResponseDoc := rfl
  ⟨h,
   (runAggregation_response_fields defaultPriceTable stubBackend sampleRequestWithDoc
      sampleRunResponseDoc h).1,
   rfl⟩

/-- C3: for every successful request the agreement confidence equals
winning-group size divided by the number of successful samples, lies in
[0,1], and the winning-group size is recovered by rounding agreement
confidence times the number of successful samples. -/
theorem agreement_confidence_props (samples : List SelfConsistencySample)
    (h : samples ≠ []) :
    agreementConfidence samples
        = ((voteWinner samples).size : ℚ) / (samples.length : ℚ)
    ∧ 0 ≤ agreementConfidence samples
    ∧ agreementConfidence samples ≤ 1
    ∧ round (agreementConfidence samples * (samples.length : ℚ))
        = ((voteWinner samples).size : ℤ)
    ∧ (∀ (prices : ModelTier → PriceTier) (b : Backend) (req : PromptRequest)
          (resp : AgenticResponse),
        (runAggregation prices b req).result = Except.ok resp →
        resp.agreement_confidence
          = agreementConfidence
              (successfulSamples b req.num_self_consistency.toNat req.num_cot.toNat)) := by
  have hlen : 0 < samples.length := List.length_pos.2 h
  have hlenq : (0 : ℚ) < (samples.length : ℚ) := by exact_mod_cast hlen
  have hsz : (voteWinner samples).size ≤ samples.length :=
    mem_answerGroups_size_le (voteWinner_mem h)
  refine ⟨rfl, ?_, ?_, ?_, ?_⟩
  · exact div_nonneg (by positivity) (le_of_lt hlenq)
  · exact (div_le_one hlenq).2 (by exact_mod_cast hsz)
  · rw [agreementConfidence, div_mul_cancel₀ _ (ne_of_gt hlenq)]
    exact round_natCast _
  · intro prices b req resp hok
    obtain ⟨-, -, ⟨r, -, rfl⟩ | ⟨pe, -, rfl⟩⟩ := runAggregation_ok_elim hok <;> rfl

/-- Witness for C3 on the spec's Scenario A samples (four Paris, one
Lyon): agreement confidence 4/5 and the rounding identity at that
value. -/
theorem agreement_confidence_props_witness :
    scenarioASamples ≠ []
    ∧ agreementConfidence scenarioASamples = 4/5
    ∧ 0 ≤ agreementConfidence scenarioASamples
    ∧ agreementConfidence scenarioASamples ≤ 1
    ∧ round (agreementConfidence scenarioASamples * (scenarioASamples.length : ℚ))
        = ((voteWinner scenarioASamples).size : ℤ) :=
  have h : scenarioASamples ≠ [] := by decide
  have hval : agreementConfidence scenarioASamples = 4/5 := by
    have h4 : (voteWinner scenarioASamples).size = 4 := by decide
    have h5 : scenarioASamples.length = 5 := by decide
    unfold agreementConfidence
    rw [h4, h5]
    norm_num
  ⟨h, hval,
   (agreement_confidence_props scenarioASamples h).2.1,
   (agreement_confidence_props scenarioASamples h).2.2.1,
   (agreement_confidence_props scenarioASamples h).2.2.2.1⟩

/-- C4: when the single Reflection Stage call fails with a
`ProviderError` (and the request is otherwise valid with at least one
successful sample), `runAggregation` still succeeds, the final answer is
the pre-reflection winner selected by the Consistency Voter, and the
reflection fields are left empty (confidence zero, reasoning empty). -/
theorem reflection_failure_nonfatal (prices : ModelTier → PriceTier) (b : Backend)
    (req : PromptRequest) (pe : ProviderError)
    (hr : b.reflect = Except.error pe)
    (hv : validate req = none)
    (hs : successfulSamples b req.num_self_consistency.toNat req.num_cot.toNat ≠ []) :
    resultOK (runAggregation prices b req).result = true
    ∧ ∀ resp, (runAggregation prices b req).result = Except.ok resp →
        resp.final_answer
            = (voteWinner
                (successfulSamples b req.num_self_consistency.toNat req.num_cot.toNat)).representative
        ∧ resp.preliminary_answer = resp.final_answer
        ∧ resp.reflection_confidence = 0
        ∧ resp.reflection_reasoning = "" := by
  have hrun : runAggregation prices b req
      = { result := Except.ok (composeResponse prices req
            (successfulSamples b req.num_self_consistency.toNat req.num_cot.toNat) none
            (fanOutPromptTokens b req.num_self_consistency.toNat req.num_cot.toNat)
            (fanOutCompletionTokens b req.num_self_consistency.toNat req.num_cot.toNat) b)
        , modelCalls := fanOutCalls b req.num_self_consistency.toNat req.num_cot.toNat + 1 } := by
    unfold runAggregation
    rw [hv]
    dsimp only
    rw [if_neg hs, hr]
  rw [hrun]
  refine ⟨rfl, ?_⟩
  intro resp hresp
  have hr' : resp = composeResponse prices req
      (successfulSamples b req.num_self_consistency.toNat req.num_cot.toNat) none
      (fanOutPromptTokens b req.num_self_consistency.toNat req.num_cot.toNat)
      (fanOutCompletionTokens b req.num_self_consistency.toNat req.num_cot.toNat) b :=
    (Except.ok.inj hresp).symm
  subst hr'
  exact ⟨rfl, rfl, rfl, rfl⟩

/-- Witness for C4: reflection failure on the stub backend still
produces a successful result whose reflection fields are empty. -/
theorem reflection_failure_nonfatal_witness :
    resultOK (runAggregation defaultPriceTable failingReflectBackend sampleRequest).result = true
    ∧ sampleRunResponseNoReflect.reflection_confidence = 0
    ∧ sampleRunResponseNoReflect.final_answer
        = (voteWinner (successfulSamples failingReflectBackend
            sampleRequest.num_self_consistency.toNat sampleRequest.num_cot.toNat)).representative :=
  have hok : (runAggregation defaultPriceTable failingReflectBackend sampleRequest).result
      = Except.ok sampleRunResponseNoReflect := rfl
  have hmain := reflection_failure_nonfatal defaultPriceTable failingReflectBackend
    sampleRequest { cause := "rate limit" } rfl (by decide) (by decide)
  ⟨hmain.1,
   (hmain.2 sampleRunResponseNoReflect hok).2.2.1,
   (hmain.2 sampleRunResponseNoReflect hok).1⟩

/-- C5: the cost breakdown multiplies token counts by the tier's
per-token price (configured per million tokens), totals input plus
output, matches the run's own token totals, and on
promptTokens=100, completionTokens=200 at $0.15/$0.60 per million
yields a total cost of 0.000135. -/
theorem cost_breakdown_correct (p : PriceTier) (pt ct : ℕ) :
    (computeCost p pt ct).input_cost = (pt : ℚ) * (p.input_price_per_1m / 1000000)
    ∧ (computeCost p pt ct).output_cost = (ct : ℚ) * (p.output_price_per_1m / 1000000)
    ∧ (computeCost p pt ct).total_cost
        = (computeCost p pt ct).input_cost + (computeCost p pt ct).output_cost
    ∧ (∀ (prices : ModelTier → PriceTier) (b : Backend) (req : PromptRequest)
          (resp : AgenticResponse),
        (runAggregation prices b req).result = Except.ok resp →
        resp.cost_analysis
          = computeCost (prices req.model) resp.token_usage.prompt_tokens
              resp.token_usage.completion_tokens)
    ∧ (computeCost ⟨15/100, 60/100, "USD", "gpt-4o-mini"⟩ 100 200).total_cost
        = 135/1000000 := by
  refine ⟨rfl, rfl, rfl, ?_, ?_⟩
  · intro prices b req resp hok
    obtain ⟨-, -, ⟨r, -, rfl⟩ | ⟨pe, -, rfl⟩⟩ := runAggregation_ok_elim hok <;> rfl
  · norm_num [computeCost]

/-- Witness for C5: the concrete stub run's cost analysis is the cost of
its own token totals at the request's tier prices. -/
theorem cost_breakdown_correct_witness :
    (runAggregation defaultPriceTable stubBackend sampleRequest).result
        = Except.ok sampleRunResponse
    ∧ sampleRunResponse.cost_analysis
        = computeCost (defaultPriceTable sampleRequest.model)
            sampleRunResponse.token_usage.prompt_tokens
            sampleRunResponse.token_usage.completion_tokens :=
  have h : (runAggregation defaultPriceTable stubBackend sampleRequest).result
      = Except.ok sampleRunResponse := rfl
  ⟨h, (cost_breakdown_correct (defaultPriceTable sampleRequest.model) 0 0).2.2.2.1
        defaultPriceTable stubBackend sampleRequest sampleRunResponse h⟩

/-- C6: the pipeline is deterministic — the same inputs give the same
`RunOutcome` — and the Consistency Voter's two-stage tie-break is a
total comparison whose winner is one of the groups and is preferred over
every group, so the same winner is always chosen on the same inputs. -/
theorem pipeline_deterministic :
    (∀ (prices : ModelTier → PriceTier) (b : Backend) (req : PromptRequest),
        runAggregation prices b req = runAggregation prices b req)
    ∧ (∀ samples : List SelfConsistencySample, samples ≠ [] →
        voteWinner samples ∈ answerGroups samples
        ∧ ∀ g ∈ answerGroups samples, ¬ betterThan g (voteWinner samples))
    ∧ (∀ g1 g2 : ConsistencyGroup,
        betterThan g1 g2 ∨ betterThan g2 g1
        ∨ (g1.size = g2.size ∧ g1.meanConfidence = g2.meanConfidence
            ∧ g1.minIndex = g2.minIndex)) := by
  refine ⟨fun _ _ _ => rfl, ?_, ?_⟩
  · intro samples h
    exact ⟨voteWinner_mem h, voteWinner_maximal h⟩
  · intro g1 g2
    unfold betterThan
    rcases lt_trichotomy g1.size g2.size with hs | hs | hs
    · exact Or.inr (Or.inl (Or.inl hs))
    · rcases lt_trichotomy g1.meanConfidence g2.meanConfidence with hm | hm | hm
      · exact Or.inr (Or.inl (Or.inr ⟨hs.symm, Or.inl hm⟩))
      · rcases lt_trichotomy g1.minIndex g2.minIndex with hi | hi | hi
        · exact Or.inl (Or.inr ⟨hs, Or.inr ⟨hm, hi⟩⟩)
        · exact Or.inr (Or.inr ⟨hs, hm, hi⟩)
        · exact Or.inr (Or.inl (Or.inr ⟨hs.symm, Or.inr ⟨hm.symm, hi⟩⟩))
      · exact Or.inl (Or.inr ⟨hs, Or.inl hm⟩)
    · exact Or.inl (Or.inl hs)

/-- Witness for C6: running the stub pipeline twice gives equal
outcomes, and on the Scenario A samples the winner is among the groups
and is the Paris group of size four. -/
theorem pipeline_deterministic_witness :
    runAggregation defaultPriceTable stubBackend sampleRequest
        = runAggregation defaultPriceTable stubBackend sampleRequest
    ∧ voteWinner scenarioASamples ∈ answerGroups scenarioASamples
    ∧ (voteWinner scenarioASamples).size = 4 :=
  ⟨pipeline_deterministic.1 defaultPriceTable stubBackend sampleRequest,
   (pipeline_deterministic.2.1 scenarioASamples (by decide)).1,
   by decide⟩

/-- C7: with the default weights, the blended confidence score is
0.4·agreement + 0.3·mean self-reported + 0.3·reflection when reflection
succeeded, and with the reflection term dropped and its weight
redistributed proportionally (4/7 and 3/7) when reflection was
skipped; every successful run's `confidence_score` is blended exactly
this way from its own agreement and mean confidences. -/
theorem blended_confidence_weights (a m r : ℚ) :
    blendedConfidence defaultWeights a m (some r)
        = (2/5) * a + (3/10) * m + (3/10) * r
    ∧ blendedConfidence defaultWeights a m none = (4/7) * a + (3/7) * m
    ∧ (∀ (prices : ModelTier → PriceTier) (b : Backend) (req : PromptRequest)
          (resp : AgenticResponse) (rr : ReflectOutput),
        b.reflect = Except.ok rr →
        (runAggregation prices b req).result = Except.ok resp →
        resp.confidence_score
          = blendedConfidence defaultWeights resp.agreement_confidence resp.llm_confidence
              (some rr.confidence))
    ∧ (∀ (prices : ModelTier → PriceTier) (b : Backend) (req : PromptRequest)
          (resp : AgenticResponse) (pe : ProviderError),
        b.reflect = Except.error pe →
        (runAggregation prices b req).result = Except.ok resp →
        resp.confidence_score
          = blendedConfidence defaultWeights resp.agreement_confidence resp.llm_confidence
              none) := by
  refine ⟨rfl, ?_, ?_, ?_⟩
  · show ((2 : ℚ)/5 * a + 3/10 * m) / (2/5 + 3/10) = (4/7) * a + (3/7) * m
    have h710 : ((2 : ℚ)/5 + 3/10) = 7/10 := by norm_num
    rw [h710]
    field_simp
    ring
  · intro prices b req resp rr hb hok
    obtain ⟨-, -, ⟨r', hr', rfl⟩ | ⟨pe', hr', rfl⟩⟩ := runAggregation_ok_elim hok
    · rw [hb] at hr'
      obtain rfl := Except.ok.inj hr'
      rfl
    · rw [hb] at hr'
      exact absurd hr' (by simp)
  · intro prices b req resp pe hb hok
    obtain ⟨-, -, ⟨r', hr', rfl⟩ | ⟨pe', hr', rfl⟩⟩ := runAggregation_ok_elim hok
    · rw [hb] at hr'
      exact absurd hr' (by simp)
    · rfl

/-- Witness for C7: the renormalized form at concrete values, and the
two reflection branches on the stub backends. -/
theorem blended_confidence_weights_witness :
    blendedConfidence defaultWeights 1 90 none = (4/7) * 1 + (3/7) * 90
    ∧ sampleRunResponse.confidence_score
        = blendedConfidence defaultWeights sampleRunResponse.agreement_confidence
            sampleRunResponse.llm_confidence (some 95)
    ∧ sampleRunResponseNoReflect.confidence_score
        = blendedConfidence defaultWeights sampleRunResponseNoReflect.agreement_confidence
            sampleRunResponseNoReflect.llm_confidence none :=
  ⟨(blended_confidence_weights 1 90 0).2.1,
   (blended_confidence_weights 0 0 0).2.2.1 defaultPriceTable stubBackend sampleRequest
     sampleRunResponse
     { answer := "Paris", reasoning := "The analysis confirms the answer."
     , confidence := 95, prompt_tokens := 30, completion_tokens := 15 }
     rfl rfl,
   (blended_confidence_weights 0 0 0).2.2.2 defaultPriceTable failingReflectBackend
     sampleRequest sampleRunResponseNoReflect { cause := "rate limit" } rfl rfl⟩
